import Mathlib

/-!
# Verification of the feedly python-api-client request/pagination core

Shallow embedding of the repository's core modules into Lean 4:

* `src/feedly/stream.py`   — stream identifiers, `StreamOptions`, `StreamBase`
  (`__iter__`, `reset`), embedded below as `Page`, `runStream`, `StreamState`.
* `src/feedly/protocol.py` — `RateLimiter` (`rate_limited`, `make_rate_limited`,
  `update`).
* `src/feedly/session.py`  — `FeedlySession.do_api_request` (attempt loop,
  retry/backoff, error classification, 401 token refresh), embedded as
  `attemptLoop` / `doApiRequest` over an explicit network trace.
* `src/feedly/api_client/data.py` — `LazyStreams` resolver (`get`,
  `get_from_id`, `get_from_name`, `make_stream_from_id`, `UUID_REGEX`).

Python strings are modelled as `List Char` (`Str`) so that `split`/`join`
semantics are explicit; machine integers and times are `Int`/`Nat`.
-/

set_option autoImplicit false

/-- Python strings, modelled as lists of characters so that `str.split('/')`
and `'/'.join` have explicit executable semantics. -/
abbrev Str := List Char

/-- `a.startswith(b)` on the `Str` model (Python `str.startswith`). -/
def strStartsWith (s pre : Str) : Bool := pre.isPrefixOf s

/-- `'/'.join(parts)` from `stream.py` (used by `UserStreamId.__init__` and
`EnterpriseStreamId.__init__`). -/
def joinSlash : List Str → Str
  | [] => []
  | [x] => x
  | x :: xs => x ++ '/' :: joinSlash xs

/-- `id_.split('/')` from `stream.py`. Python semantics: `"".split('/') = [""]`,
separators produce (possibly empty) fields on both sides. -/
def splitOnSlash : Str → List Str
  | [] => [[]]
  | c :: rest =>
    if c = '/' then [] :: splitOnSlash rest
    else
      match splitOnSlash rest with
      | [] => [[c]]
      | p :: ps => (c :: p) :: ps

/-! ## `stream.py`: `StreamBase.__iter__` and `reset` -/

/-- One server response to a paginated stream request, as consumed by
`StreamBase.__iter__` (`stream.py` lines 161-165). `items = none` models a
response that lacks the configured items property (or is an empty/falsy dict),
in which case the buffer is left unchanged; `continuation` is
`resp.get('continuation')`. -/
structure Page (α : Type) where
  items : Option (List α)
  continuation : Option String
  deriving Repr, DecidableEq

/-- Result of one run of the `__iter__` generator: the yielded items, the
number of `do_api_request` page calls issued, and the final cursor fields
(`self.continuation`, `self.buffer`) left on the stream object. `n` is the
final value of the local yield counter. -/
structure IterResult (α : Type) where
  items : List α
  requests : Nat
  cont : Option String
  buffer : List α
  n : Nat
  deriving Repr, DecidableEq

/-- The loop of `StreamBase.__iter__` (`stream.py` lines 149-165), driven by
the list of pages the server will return for successive requests.

* outer `while n < self.options._max_count and (self.continuation is not None
  or self.buffer)`;
* inner `while self.buffer:` pops from the END of the buffer
  (`self.buffer.pop()`), yielding at most `maxCount - n` items;
* then, if a continuation is known and more items are wanted, one page request
  is issued: `self.continuation = resp.get('continuation')` and the buffer is
  replaced by the response's item list when present.

When `pages` is exhausted the server's answer is modelled as an empty (falsy)
dict: the continuation becomes `none`, the buffer is unchanged (it is empty at
every fetch point), and the following loop iteration can only drain the buffer
and stop, which is inlined in the `[]` branch. -/
def runStream {α : Type} (maxCount : Nat) : List (Page α) → Nat → Option String → List α → IterResult α
  | pages, n, cont, buffer =>
    if n < maxCount ∧ (cont.isSome || !buffer.isEmpty) = true then
      let k := min buffer.length (maxCount - n)
      let yielded := buffer.reverse.take k
      let n' := n + k
      let buffer' := buffer.take (buffer.length - k)
      if cont.isSome ∧ n' < maxCount then
        match pages with
        | [] =>
          -- fetch answered by an empty dict: continuation := none, buffer kept
          let k2 := min buffer'.length (maxCount - n')
          { items := yielded ++ buffer'.reverse.take k2
            requests := 1
            cont := none
            buffer := buffer'.take (buffer'.length - k2)
            n := n' + k2 }
        | p :: rest =>
          let newBuf := match p.items with
            | some its => its
            | none => buffer'
          let r := runStream maxCount rest n' p.continuation newBuf
          { r with items := yielded ++ r.items, requests := r.requests + 1 }
      else
        { items := yielded, requests := 0, cont := cont, buffer := buffer', n := n' }
    else
      { items := [], requests := 0, cont := cont, buffer := buffer, n := n }

/-- The mutable cursor fields of a `StreamBase` object (`self.continuation`,
`self.buffer`; `stream.py` lines 134-135). A fresh cursor has
`continuation = ''` (modelled `some ""`) and an empty buffer. -/
structure StreamState (α : Type) where
  continuation : Option String
  buffer : List α
  deriving Repr, DecidableEq

/-- `StreamBase.__init__` cursor fields: `self.continuation = ''`,
`self.buffer = []`. -/
def StreamState.initial (α : Type) : StreamState α := { continuation := some "", buffer := [] }

/-- `StreamBase.reset` (`stream.py` lines 137-138): `self.continuation = ''`.
The buffer is NOT touched. -/
def StreamState.reset {α : Type} (s : StreamState α) : StreamState α :=
  { s with continuation := some "" }

/-- One full consumption of the generator starting from cursor state `s`
(the local counter `n` starts at 0 on every call of `__iter__`). -/
def consume {α : Type} (maxCount : Nat) (pages : List (Page α)) (s : StreamState α) : IterResult α :=
  runStream maxCount pages 0 s.continuation s.buffer

/-! ## `protocol.py`: `RateLimiter` -/

/-- `RateLimiter.__init__`: `count`, `limit` and `until` all `None`.
`none` models Python `None`; times are integer seconds. -/
structure RateLimiter where
  count : Option Int := none
  limit : Option Int := none
  untilTime : Option Int := none
  deriving Repr, DecidableEq

/-- Python truthiness of an optional integer: `None` and `0` are falsy. -/
def truthy : Option Int → Bool
  | none => false
  | some n => n != 0

/-- `RateLimiter.rate_limited` (`protocol.py` lines 67-70): when any of
`count`, `limit`, `until` is falsy the property returns `None` (falsy),
otherwise `count >= limit and time.time() < until`. -/
def RateLimiter.rate_limited (rl : RateLimiter) (now : Int) : Bool :=
  truthy rl.count && truthy rl.limit && truthy rl.untilTime
    && decide (rl.count.getD 0 ≥ rl.limit.getD 0) && decide (now < rl.untilTime.getD 0)

/-- `RateLimiter.make_rate_limited` (`protocol.py` lines 72-75):
`count = 1`, `limit = 1`, `until = time.time() + t`. -/
def RateLimiter.make_rate_limited (_rl : RateLimiter) (now : Int) (t : Int) : RateLimiter :=
  { count := some 1, limit := some 1, untilTime := some (now + t) }

/-- The three rate-limit response headers after `_try_int` parsing
(`X-RateLimit-Count` / `-Limit` / `-Reset`); `none` models a header that is
absent or fails to parse as an int. -/
structure RLHeaders where
  countHeader : Option Int := none
  limitHeader : Option Int := none
  resetHeader : Option Int := none
  deriving Repr, DecidableEq

/-- `RateLimiter.update` (`protocol.py` lines 77-89): each header value is
stored only when truthy (`if count:` etc.); a truthy reset delay sets
`until = time.time() + reset`. The Python return value (`count <= limit` when
both truthy, else `None`) is used by no caller and is not modelled. -/
def RateLimiter.update (rl : RateLimiter) (now : Int) (h : RLHeaders) : RateLimiter :=
  let rl := if truthy h.countHeader then { rl with count := h.countHeader } else rl
  let rl := if truthy h.limitHeader then { rl with limit := h.limitHeader } else rl
  if truthy h.resetHeader then { rl with untilTime := some (now + h.resetHeader.getD 0) } else rl

/-! ## `session.py`: `FeedlySession.do_api_request`

The network is modelled as an explicit trace: the list of outcomes the
successive HTTP calls of `self.session.request` will produce, consumed in
order. Per the `requests` library, `Response.__bool__` is `Response.ok`,
i.e. `status_code < 400`; this matters at `session.py` line 181
(`if resp: self.rate_limiter.update(resp)`). -/

/-- An HTTP response as far as `do_api_request` inspects it: status code,
rate-limit headers (already `_try_int`-parsed), the `access_token` field of
the JSON body when present (used by the token-refresh path), and whether the
body is non-empty (`resp.content`). -/
structure HttpResp where
  status : Nat
  headers : RLHeaders := {}
  accessToken : Option String := none
  hasContent : Bool := true
  deriving Repr, DecidableEq

/-- `requests.Response.ok` (and `Response.__bool__`): `status_code < 400`. -/
def HttpResp.ok (r : HttpResp) : Bool := r.status < 400

/-- Outcome of one `self.session.request` call: either an `OSError` raised
(transport failure) or a response. -/
inductive NetOutcome where
  | conn
  | resp (r : HttpResp)
  deriving Repr, DecidableEq

/-- The failures `do_api_request` can surface: Python `ValueError` (local
validation), the raised `OSError`, the wrapped-HTTPError taxonomy of
`protocol.py`, a generic re-raised `HTTPError`, and two modelling artifacts
(`traceExhausted` when the trace has no outcome for a call, `fuelOut` when
the recursion fuel runs out -- neither occurs in any theorem below). -/
inductive SessErr where
  | valueErr (msg : String)
  | connErr
  | badRequest
  | unauthorized
  | rateLimited
  | serverError
  | httpErr (status : Nat)
  | traceExhausted
  | fuelOut
  deriving Repr, DecidableEq

/-- What the `while True:` attempt loop (`session.py` lines 165-193) produces:
the returned value or raised error, the rate limiter afterwards, the trace not
yet consumed, the number of attempts performed, the backoff sleeps executed,
and the response that terminated the loop successfully (if any; instrumentation
for stating which response updated the limiter). -/
structure LoopOut where
  result : Except SessErr (Option HttpResp)
  rl : RateLimiter
  trace : List NetOutcome
  tries : Nat
  sleeps : List Nat
  finalResp : Option HttpResp
  deriving Repr

/-- The attempt loop of `do_api_request` (`session.py` lines 165-193).
`tries` is the counter before the iteration (incremented at the loop top);
`maxTries` the resolved `max_tries`. Per iteration:

* `if self.rate_limiter.rate_limited:` raise `ValueError` (line 167-169);
* issue the call (next trace outcome);
* `if resp:` -- Response truthiness is `ok` -- update the rate limiter;
* on ok: return the parsed body (`none` models an empty body);
* else, when this was attempt `max_tries` or the status lies in `[400, 500]`
  (the `# don't retry bad requests` guard, WHICH INCLUDES 500), raise the
  connection error or `resp.raise_for_status()`;
* else sleep `2^(tries-1)` seconds and loop. -/
def attemptLoop (maxTries : Int) (now : Int) :
    List NetOutcome → Nat → RateLimiter → LoopOut
  | trace, tries, rl =>
    if rl.rate_limited now then
      { result := .error (.valueErr "Too many requests. Client is rate limited"),
        rl := rl, trace := trace, tries := tries, sleeps := [], finalResp := none }
    else
      match trace with
      | [] =>
        { result := .error .traceExhausted, rl := rl, trace := [],
          tries := tries, sleeps := [], finalResp := none }
      | o :: rest =>
        let t := tries + 1
        match o with
        | .conn =>
          if (t : Int) = maxTries then
            { result := .error .connErr, rl := rl, trace := rest,
              tries := t, sleeps := [], finalResp := none }
          else
            let r := attemptLoop maxTries now rest t rl
            { r with sleeps := 2 ^ (t - 1) :: r.sleeps }
        | .resp resp =>
          let rl' := if resp.ok then rl.update now resp.headers else rl
          if resp.ok then
            { result := .ok (if resp.hasContent then some resp else none),
              rl := rl', trace := rest, tries := t, sleeps := [], finalResp := some resp }
          else if (t : Int) = maxTries ∨ (400 ≤ resp.status ∧ resp.status ≤ 500) then
            { result := .error (.httpErr resp.status), rl := rl', trace := rest,
              tries := t, sleeps := [], finalResp := none }
          else
            let r := attemptLoop maxTries now rest t rl'
            { r with sleeps := 2 ^ (t - 1) :: r.sleeps }

/-- `if 10 < max_tries < 0:` (`session.py` line 148). Python chains the
comparison: `10 < max_tries and max_tries < 0`. -/
def invalidMaxTries (m : Int) : Bool := decide (10 < m) && decide (m < 0)

/-- The session fields `do_api_request` reads and writes, plus the network
trace and instrumentation: `apiCalls` records the (normalized) relative url of
every `do_api_request` invocation that reaches the network phase, `sleeps`
accumulates every backoff executed. `now` is `time.time()`, held fixed. -/
structure SessState where
  authToken : Option String
  refreshToken : Option String := none
  lastRefreshAttempt : Int := 0
  now : Int
  rl : RateLimiter := {}
  trace : List NetOutcome
  apiCalls : List Str := []
  sleeps : List Nat := []
  deriving Repr

/-- `'/v3/'` -/
def pathV3 : Str := "/v3/".toList
/-- `'/v3/auth'` -/
def pathAuth : Str := "/v3/auth".toList
/-- `'/v3/auth/token'` -/
def pathAuthToken : Str := "/v3/auth/token".toList
/-- `'get'` -/
def getStr : Str := "get".toList
/-- `'post'` -/
def postStr : Str := "post".toList

/-- `FeedlySession.do_api_request` (`session.py` lines 118-218), driven by the
state's trace. `hasData` models `data is not None` with a non-empty dict (the
only shape the callers pass); `maxTriesArg = none` models the `max_tries=None`
default, resolved to `self.max_tries = 3`. `fuel` bounds the recursion of the
401-refresh path (the real recursion depth is at most 2, because a refresh
stamps `_last_token_refresh_attempt`); no theorem below depends on `fuelOut`.

Steps, in source order: resolve `max_tries`; `ValueError` when no auth token;
prepend `'/'` when missing (Python raises `IndexError` on an empty url; the
model prepends); `ValueError` unless the path starts with `'/v3/'`;
`ValueError` when `10 < max_tries < 0` (dead guard); resolve `method` from
`data`; `ValueError` for GET with data; fail `RateLimited` when the limiter
already reports limited (in CPython this raise is itself mis-handled by the
`except HTTPError` clause and surfaces as an `AttributeError`; modelled as the
intended RateLimited failure -- no claim touches it); run the attempt loop;
classify a raised `HTTPError` by status: 400 BadRequest; 401 with a refresh
token, a non-auth path and no refresh attempt in the last 24h stamps the
attempt time, calls `/v3/auth/token`, stores the returned `access_token` and
retries the original request once inside the same `try`, any failure of
refresh or retry falling through to the original Unauthorized; 429 forces the
limiter limited (60s) when not already limited, then RateLimited; 500
ServerError; anything else re-raised. -/
def doApiRequest : Nat → Str → Option Str → Bool → Option Int → SessState →
    Except SessErr (Option HttpResp) × SessState
  | 0, _, _, _, _, s => (.error .fuelOut, s)
  | Nat.succ fuel, relUrl0, methodArg, hasData, maxTriesArg, s0 =>
    let maxTries : Int := maxTriesArg.getD 3
    if s0.authToken = none then
      (.error (.valueErr "authorization token required!"), s0)
    else
      let relUrl : Str := if relUrl0.head? = some '/' then relUrl0 else '/' :: relUrl0
      if ¬ strStartsWith relUrl pathV3 then
        (.error (.valueErr "invalid endpoint"), s0)
      else if invalidMaxTries maxTries then
        (.error (.valueErr "invalid max tries"), s0)
      else
        let method : Str := methodArg.getD (if hasData then postStr else getStr)
        if method = getStr ∧ hasData then
          (.error (.valueErr "post data not allowed for GET requests"), s0)
        else
          let s1 := { s0 with apiCalls := s0.apiCalls ++ [relUrl] }
          if s1.rl.rate_limited s1.now then
            (.error .rateLimited, s1)
          else
            let out := attemptLoop maxTries s1.now s1.trace 0 s1.rl
            let s2 := { s1 with rl := out.rl, trace := out.trace,
                                sleeps := s1.sleeps ++ out.sleeps }
            match out.result with
            | .ok v => (.ok v, s2)
            | .error (.httpErr code) =>
              if code = 400 then (.error .badRequest, s2)
              else if code = 401 then
                if ¬ strStartsWith relUrl pathAuth ∧ s2.refreshToken.isSome ∧
                    s2.now - s2.lastRefreshAttempt > 86400 then
                  let s3 := { s2 with lastRefreshAttempt := s2.now }
                  match doApiRequest fuel pathAuthToken none true none s3 with
                  | (.ok (some tok), s4) =>
                    match tok.accessToken with
                    | some newTok =>
                      let s5 := { s4 with authToken := some newTok }
                      match doApiRequest fuel relUrl (some method) hasData (some maxTries) s5 with
                      | (.ok v, s6) => (.ok v, s6)
                      | (.error _, s6) => (.error .unauthorized, s6)
                    | none =>
                      -- KeyError('access_token') caught by `except Exception`
                      (.error .unauthorized, s4)
                  | (.ok none, s4) => (.error .unauthorized, s4)
                  | (.error _, s4) => (.error .unauthorized, s4)
                else (.error .unauthorized, s2)
              else if code = 429 then
                let s3 := if ¬ s2.rl.rate_limited s2.now then
                    { s2 with rl := s2.rl.make_rate_limited s2.now 60 }
                  else s2
                (.error .rateLimited, s3)
              else if code = 500 then (.error .serverError, s2)
              else (.error (.httpErr code), s2)
            | .error e => (.error e, s2)

/-! ## `stream.py`: stream identifiers -/

/-- `'user'` (`STREAM_SOURCE_USER`). -/
def userSource : Str := "user".toList
/-- `'enterprise'` (`STREAM_SOURCE_ENTERPRISE`). -/
def enterpriseSource : Str := "enterprise".toList

/-- The five fields `StreamIdBase.__init__` stores (`stream.py` lines 17-29). -/
structure StreamId where
  id : Str
  source : Str
  source_id : Str
  type : Str
  content_id : Str
  deriving Repr, DecidableEq

/-- `UserStreamId.__init__` (`stream.py` lines 66-75): a missing `id_` is the
slash-join of `parts`, missing `parts` the slash-split of `id_`; requires
`id_.startswith('user')`; stores `source_id = parts[1]`, `type = parts[2]`,
`content_id = '/'.join(parts[3:])`. Python raises `IndexError` when `parts`
has fewer than 3 entries; modelled by `getD []` (no theorem below reaches that
case). -/
def mkUserStreamId (idArg : Option Str) (partsArg : Option (List Str)) :
    Except String StreamId :=
  let i : Str := match idArg with
    | some v => v
    | none => joinSlash (partsArg.getD [])
  let ps : List Str := match partsArg with
    | some v => v
    | none => splitOnSlash i
  if strStartsWith i userSource then
    .ok { id := i, source := userSource, source_id := ps.getD 1 [],
          type := ps.getD 2 [], content_id := joinSlash (ps.drop 3) }
  else .error "not a user stream"

/-- `EnterpriseStreamId.__init__` (`stream.py` lines 85-101): same resolution
of `id_`/`parts`; requires `id_.startswith('enterprise')`; stores
`content_id = parts[3]` (NOT re-joined). -/
def mkEnterpriseStreamId (idArg : Option Str) (partsArg : Option (List Str)) :
    Except String StreamId :=
  let i : Str := match idArg with
    | some v => v
    | none => joinSlash (partsArg.getD [])
  let ps : List Str := match partsArg with
    | some v => v
    | none => splitOnSlash i
  if strStartsWith i enterpriseSource then
    .ok { id := i, source := enterpriseSource, source_id := ps.getD 1 [],
          type := ps.getD 2 [], content_id := ps.getD 3 [] }
  else .error "not an enterprise stream"

/-- `StreamIdBase.from_string` (`stream.py` lines 39-50). The unknown-source
branch calls `StreamIdBase(id_, 'unk', 'unknown', 'unknown')` with only four
of the five required arguments, a `TypeError` in CPython; modelled as an
error. (The `@staticmethod` wrongly keeps a `self` parameter, which does not
affect the parse itself.) -/
def StreamIdBase.from_string (idArg : Str) : Except String StreamId :=
  let parts := splitOnSlash idArg
  if parts.length < 4 then .error "invalid id"
  else if strStartsWith idArg userSource then
    mkUserStreamId (some idArg) (some parts)
  else if strStartsWith idArg enterpriseSource then
    mkEnterpriseStreamId (some idArg) none
  else .error "TypeError: StreamIdBase.__init__ missing content_id"

/-! ## `api_client/data.py`: the `LazyStreams` resolver -/

/-- `[0-9a-f]` with `re.IGNORECASE` (from `UUID_REGEX`). -/
def isHexChar (c : Char) : Bool :=
  ('0' ≤ c && c ≤ '9') || ('a' ≤ c && c ≤ 'f') || ('A' ≤ c && c ≤ 'F')

/-- Consume exactly `n` hex characters; `none` when the input is shorter or a
character is not hex. -/
def hexRun : Nat → Str → Option Str
  | 0, s => some s
  | _ + 1, [] => none
  | n + 1, c :: rest => if isHexChar c then hexRun n rest else none

/-- Consume one `'-'`. -/
def dashRun : Str → Option Str
  | '-' :: r => some r
  | _ => none

/-- `UUID_REGEX.match(id)` (`data.py` line 180, used line 226): the regex
`[0-9a-f]{8}\b-[0-9a-f]{4}-[0-9a-f]{4}-[0-9a-f]{4}-\b[0-9a-f]{12}` with
`re.IGNORECASE`, matched at the START of the string (`re.match`), trailing
characters allowed. The two `\b` boundaries sit between a hex digit and `'-'`
and are always satisfied, so the regex is exactly this prefix shape. -/
def uuidMatch (s : Str) : Bool :=
  ((((((((hexRun 8 s).bind dashRun).bind (hexRun 4)).bind dashRun).bind
    (hexRun 4)).bind dashRun).bind (hexRun 4)).bind dashRun |>.bind (hexRun 12)).isSome

/-- A `LazyStreams[StreamableT]` resolver (`data.py` lines 183-235), with the
entity kind abstract. `label e` is `e["label"]`; `contentId e` is
`e.stream_id.content_id`; `factory s` is `self.factory({"id": s}, client)`;
`serverList` is what `client.do_api_request(self.endpoint)` would produce; and
`cache` is the backing field of the `streams` cached_property (`some` once
populated). -/
structure LazyStreams (ε : Type) where
  parts : List Str
  label : ε → Str
  contentId : ε → Str
  factory : Str → ε
  serverList : List ε
  cache : Option (List ε)

/-- The `streams` cached_property (`data.py` lines 194-197): the cached list
when populated, else one list-endpoint fetch whose result is cached. The `Nat`
counts network calls performed. -/
def LazyStreams.streams {ε : Type} (L : LazyStreams ε) :
    List ε × LazyStreams ε × Nat :=
  match L.cache with
  | some l => (l, L, 0)
  | none => (L.serverList, { L with cache := some L.serverList }, 1)

/-- Lookup in a Python dict built from `pairs` in order (later pairs
overwrite earlier ones with the same key). -/
def dictLookup {ε : Type} (pairs : List (Str × ε)) (k : Str) : Option ε :=
  (pairs.reverse.find? (fun p => p.1 == k)).map (fun p => p.2)

/-- `list(dict)` on a dict built from `pairs` in order: the keys, first
occurrence first, deduplicated. -/
def dictKeys {ε : Type} (pairs : List (Str × ε)) : List Str :=
  (pairs.map (fun p => p.1)).eraseDups

/-- The `ValueError` raised by `get_from_name`/`get_from_id` when nothing
matches: its message carries the missing key and enumerates the available
keys (`f"Stream ... not found. Available streams: {list(...)}"`). -/
inductive ResolveErr where
  | notFound (key : Str) (available : List Str)
  deriving Repr, DecidableEq

/-- `id2stream` (`data.py` lines 199-201): `{stream.stream_id.content_id:
stream}` over `streams`, as the ordered pair list the dict is built from. -/
def LazyStreams.id2stream {ε : Type} (L : LazyStreams ε) :
    List (Str × ε) × LazyStreams ε × Nat :=
  let r := L.streams
  (r.1.map (fun e => (L.contentId e, e)), r.2.1, r.2.2)

/-- `name2stream` (`data.py` lines 203-205): `{stream["label"]: stream}`. -/
def LazyStreams.name2stream {ε : Type} (L : LazyStreams ε) :
    List (Str × ε) × LazyStreams ε × Nat :=
  let r := L.streams
  (r.1.map (fun e => (L.label e, e)), r.2.1, r.2.2)

/-- `make_stream_from_id` (`data.py` lines 234-235):
`factory({"id": "/".join(self.parts + [uuid])}, self.client)`. -/
def LazyStreams.make_stream_from_id {ε : Type} (L : LazyStreams ε) (uuid : Str) : ε :=
  L.factory (joinSlash (L.parts ++ [uuid]))

/-- `get_from_id` (`data.py` lines 225-232): a UUID-shaped argument is built
directly as a placeholder (no list fetch); otherwise the content-id dict is
consulted, `ValueError` listing the available ids when absent. -/
def LazyStreams.get_from_id {ε : Type} (L : LazyStreams ε) (idArg : Str) :
    Except ResolveErr ε × LazyStreams ε × Nat :=
  if uuidMatch idArg then (.ok (L.make_stream_from_id idArg), L, 0)
  else
    let r := L.id2stream
    match dictLookup r.1 idArg with
    | some e => (.ok e, r.2.1, r.2.2)
    | none => (.error (.notFound idArg (dictKeys r.1)), r.2.1, r.2.2)

/-- `get_from_name` (`data.py` lines 219-223): label-dict lookup, `ValueError`
listing the available labels when absent. -/
def LazyStreams.get_from_name {ε : Type} (L : LazyStreams ε) (name : Str) :
    Except ResolveErr ε × LazyStreams ε × Nat :=
  let r := L.name2stream
  match dictLookup r.1 name with
  | some e => (.ok e, r.2.1, r.2.2)
  | none => (.error (.notFound name (dictKeys r.1)), r.2.1, r.2.2)

/-- `get` (`data.py` lines 207-217) for a string argument: try `get_from_id`,
and on its `ValueError` fall back to `get_from_name`. (The `isinstance(...,
StreamIdBase)` branch is for identifier-object arguments, which no claim
exercises.) The `Nat` totals the list-endpoint fetches performed. -/
def LazyStreams.get {ε : Type} (L : LazyStreams ε) (nameOrId : Str) :
    Except ResolveErr ε × LazyStreams ε × Nat :=
  match L.get_from_id nameOrId with
  | (.ok e, L1, n) => (.ok e, L1, n)
  | (.error _, L1, n) =>
    let r := L1.get_from_name nameOrId
    (r.1, r.2.1, n + r.2.2)

/-! ## Helper lemmas -/

/-- `RateLimiter.update` with no truthy header value stores nothing. -/
theorem RateLimiter.update_no_headers (a : RateLimiter) (t : Int) (h : RLHeaders)
    (hc : truthy h.countHeader = false) (hl : truthy h.limitHeader = false)
    (hr : truthy h.resetHeader = false) : a.update t h = a := by
  simp [RateLimiter.update, hc, hl, hr]

/-- The attempt loop updates the rate limiter exactly from the response that
terminates it successfully (`if resp:` is Response truthiness = `ok`), and
that response is `ok`; every other outcome leaves the limiter unchanged. -/
theorem attemptLoop_rl_eq (maxTries now : Int) (trace : List NetOutcome) (tries : Nat)
    (rl : RateLimiter) :
    (attemptLoop maxTries now trace tries rl).rl
      = (match (attemptLoop maxTries now trace tries rl).finalResp with
         | some r => rl.update now r.headers
         | none => rl)
    ∧ (attemptLoop maxTries now trace tries rl).finalResp.all (fun r => r.ok) = true := by
  induction trace generalizing tries rl with
  | nil => rw [attemptLoop]; split <;> simp
  | cons o rest ih =>
    rw [attemptLoop]
    split
    · simp
    · match o with
      | .conn =>
        simp only
        split
        · simp
        · simpa using ih (tries + 1) rl
      | .resp resp =>
        simp only
        by_cases hok : resp.ok
        · simp [hok]
        · simp only [hok, if_false, Bool.false_eq_true]
          split
          · simp
          · simpa using ih (tries + 1) rl

/-- A loop that raises has no terminating successful response. -/
theorem attemptLoop_error_finalResp (maxTries now : Int) (trace : List NetOutcome)
    (tries : Nat) (rl : RateLimiter) (e : SessErr)
    (h : (attemptLoop maxTries now trace tries rl).result = .error e) :
    (attemptLoop maxTries now trace tries rl).finalResp = none := by
  induction trace generalizing tries rl with
  | nil => rw [attemptLoop] at *; revert h; split <;> simp
  | cons o rest ih =>
    rw [attemptLoop] at *
    revert h
    split
    · simp
    · match o with
      | .conn =>
        simp only
        split
        · simp
        · intro h; simpa using ih (tries + 1) rl (by simpa using h)
      | .resp resp =>
        simp only
        by_cases hok : resp.ok
        · simp [hok]
        · simp only [hok, if_false, Bool.false_eq_true]
          split
          · simp
          · intro h; simpa using ih (tries + 1) _ (by simpa using h)

/-- A loop that raises leaves the rate limiter untouched. -/
theorem attemptLoop_error_rl (maxTries now : Int) (trace : List NetOutcome)
    (tries : Nat) (rl : RateLimiter) (e : SessErr)
    (h : (attemptLoop maxTries now trace tries rl).result = .error e) :
    (attemptLoop maxTries now trace tries rl).rl = rl := by
  have h1 := (attemptLoop_rl_eq maxTries now trace tries rl).1
  rw [attemptLoop_error_finalResp maxTries now trace tries rl e h] at h1
  exact h1

/-! ## Claim C1 -/

/-- The single page the server returns for C1's failing input. -/
def c1Pages : List (Page Nat) := [{ items := some [1, 2, 3], continuation := none }]

/-- C1 (code bug): the spec requires the yielded order to equal the
server-returned order, but `StreamBase.__iter__` pops from the END of the
buffer (`self.buffer.pop()`), so the page `[1, 2, 3]` is yielded as
`[3, 2, 1]`, not `[1, 2, 3]`. -/
theorem C1_page_order_reversed :
    (runStream 100 c1Pages 0 (some "") []).items = [3, 2, 1]
    ∧ (runStream 100 c1Pages 0 (some "") []).items ≠ [1, 2, 3] :=
  ⟨rfl, by decide⟩

/-! ## Claim C2 -/

/-- An HTTP 500 response with no interesting fields. -/
def resp500 : HttpResp := { status := 500 }

/-- An HTTP 200 response with no interesting fields. -/
def resp200 : HttpResp := { status := 200 }

/-- C2's failing scenario: the endpoint would answer 500, 500, then 200;
`max_tries = 3`. -/
def c2Start : SessState :=
  { authToken := some "token"
    now := 1000000
    trace := [.resp resp500, .resp resp500, .resp resp200] }

/-- C2 (code bug): the spec says HTTP 500 is retried per the attempt loop
(succeeding here on the third attempt with 1s and 2s backoffs), but the
non-retry guard `400 <= resp.status_code <= 500` includes 500, so the call
raises `ServerAPIError` after a single attempt: two trace entries are left
unconsumed and no backoff sleep happens. -/
theorem C2_server_error_not_retried :
    (doApiRequest 2 ("/v3/markers".toList) none false (some 3) c2Start).1
      = .error .serverError
    ∧ (doApiRequest 2 ("/v3/markers".toList) none false (some 3) c2Start).2.trace
      = [.resp resp500, .resp resp200]
    ∧ (doApiRequest 2 ("/v3/markers".toList) none false (some 3) c2Start).2.sleeps = [] :=
  ⟨rfl, rfl, rfl⟩

/-! ## Claim C5 -/

/-- C5's scenario: one 200 answer available; `max_tries = 11` is out of the
documented `[1, 10]` range. -/
def c5Start : SessState :=
  { authToken := some "token"
    now := 1000000
    trace := [.resp resp200] }

/-- C5 (code bug): `if 10 < max_tries < 0:` chains to
`10 < max_tries and max_tries < 0`, which no integer satisfies, so an
out-of-range `max_tries` is never rejected: with `max_tries = 11` the request
proceeds to the network (the trace entry is consumed and the call returns the
200 body) instead of failing fast with a local validation error. -/
theorem C5_maxtries_guard_unsatisfiable :
    (∀ m : Int, invalidMaxTries m = false)
    ∧ (doApiRequest 1 ("/v3/markers".toList) none false (some 11) c5Start).1
      = .ok (some resp200)
    ∧ (doApiRequest 1 ("/v3/markers".toList) none false (some 11) c5Start).2.trace = [] := by
  refine ⟨fun m => ?_, rfl, rfl⟩
  simp only [invalidMaxTries, Bool.and_eq_false_iff, decide_eq_false_iff_not, not_lt]
  omega

/-! ## Claim C6 -/

/-- The single page the server returns for C6's failing input. -/
def c6Pages : List (Page Nat) := [{ items := some [1, 2], continuation := none }]

/-- C6 (code bug): `reset()` only clears the continuation and leaves the
buffer. A cursor with `maxCount = 1` over the page `[1, 2]` stops mid-buffer
having yielded `[2]`, with item `1` still buffered; after `reset()` the state
differs from the initial state, and a second full consumption yields `[1]` --
not the `[2]` a fresh cursor produces. -/
theorem C6_reset_leaves_buffer :
    (consume 1 c6Pages (StreamState.initial Nat)).items = [2]
    ∧ (consume 1 c6Pages (StreamState.initial Nat)).cont = none
    ∧ (consume 1 c6Pages (StreamState.initial Nat)).buffer = [1]
    ∧ StreamState.reset (⟨none, [1]⟩ : StreamState Nat) ≠ StreamState.initial Nat
    ∧ (consume 1 c6Pages (StreamState.reset ⟨none, [1]⟩)).items = [1]
    ∧ (consume 1 c6Pages (StreamState.reset ⟨none, [1]⟩)).items
      ≠ (consume 1 c6Pages (StreamState.initial Nat)).items :=
  ⟨rfl, rfl, rfl, by decide, rfl, by decide⟩

/-! ## Claim C7 -/

/-- Headers carrying `X-RateLimit-Limit: 2` and nothing else. -/
def c7Headers : RLHeaders := { limitHeader := some 2 }

/-- C7 counterexample: after `make_rate_limited(60)` at time 0 the predicate
is true at time 10 (inside the window), but a single header-driven `update`
carrying `limit = 2` makes `count >= limit` fail, so the predicate turns false
at time 10 -- the window guarantee does NOT hold "regardless of any subsequent
update() calls". -/
theorem C7_forcelimited_cleared_by_update :
    (RateLimiter.make_rate_limited {} 0 60).rate_limited 10 = true
    ∧ ((RateLimiter.make_rate_limited {} 0 60).update 5 c7Headers).rate_limited 10 = false :=
  ⟨rfl, rfl⟩

/-- C7 (amended): `make_rate_limited(seconds)` sets `count = limit = 1` and
`until = now + seconds`, and the rate-limited predicate is true for the whole
window `[now, now + seconds)` and stays true under subsequent `update()` calls
that carry no usable (truthy) rate-limit headers; an update with usable
headers can end the limited state early (see the counterexample). -/
theorem C7_forcelimited_window (rl : RateLimiter) (now secs t : Int)
    (us : List (Int × RLHeaders))
    (hnow : 0 ≤ now) (hsecs : 0 < secs)
    (h1 : now ≤ t) (h2 : t < now + secs)
    (hnone : ∀ u ∈ us, truthy u.2.countHeader = false ∧ truthy u.2.limitHeader = false
      ∧ truthy u.2.resetHeader = false) :
    (rl.make_rate_limited now secs).count = some 1
    ∧ (rl.make_rate_limited now secs).limit = some 1
    ∧ (rl.make_rate_limited now secs).untilTime = some (now + secs)
    ∧ (us.foldl (fun a u => a.update u.1 u.2) (rl.make_rate_limited now secs)).rate_limited t
      = true := by
  refine ⟨rfl, rfl, rfl, ?_⟩
  have hfold : ∀ (b : RateLimiter) (l : List (Int × RLHeaders)),
      (∀ u ∈ l, truthy u.2.countHeader = false ∧ truthy u.2.limitHeader = false
        ∧ truthy u.2.resetHeader = false) →
      l.foldl (fun a u => a.update u.1 u.2) b = b := by
    intro b l
    induction l generalizing b with
    | nil => intro _; rfl
    | cons u l ih =>
      intro h
      have hu := h u (by simp)
      simp only [List.foldl_cons, RateLimiter.update_no_headers b u.1 u.2 hu.1 hu.2.1 hu.2.2]
      exact ih b (fun v hv => h v (by simp [hv]))
  rw [hfold _ us hnone]
  simp [RateLimiter.make_rate_limited, RateLimiter.rate_limited, truthy]
  omega

/-- C7 amended-claim witness: a concrete run of `C7_forcelimited_window` with
one headerless update inside the window. -/
theorem C7_forcelimited_window_witness :
    (([(20, {})] : List (Int × RLHeaders)).foldl (fun a u => a.update u.1 u.2)
      (RateLimiter.make_rate_limited {} 0 60)).rate_limited 30 = true :=
  (C7_forcelimited_window {} 0 60 30 [(20, {})] (by decide) (by decide) (by decide) (by decide)
    (by intro u hu; simp at hu; subst hu; exact ⟨rfl, rfl, rfl⟩)).2.2.2

/-! ## Claim C8 -/

/-- Rate-limit headers present on C8's error response. -/
def c8Headers : RLHeaders :=
  { countHeader := some 5, limitHeader := some 100, resetHeader := some 60 }

/-- An HTTP 500 response that carries rate-limit headers. -/
def c8Resp : HttpResp := { status := 500, headers := c8Headers }

/-- C8's scenario: a single call answered by the 500-with-headers response. -/
def c8Start : SessState :=
  { authToken := some "token"
    now := 1000
    trace := [.resp c8Resp] }

/-- C8 counterexample: a call that receives a 500 response carrying rate-limit
headers leaves the shared `RateLimiter` untouched (its fields are still all
`None`), although applying `update` with those headers would have changed it:
`if resp:` at `session.py` line 181 is `requests` Response truthiness, which
is `ok` (status < 400), so error responses never reach `update`. -/
theorem C8_error_response_skips_update :
    (doApiRequest 1 ("/v3/markers".toList) none false (some 3) c8Start).2.rl
      = ({} : RateLimiter)
    ∧ RateLimiter.update {} 1000 c8Headers ≠ ({} : RateLimiter) :=
  ⟨rfl, by decide⟩

/-- C8 (amended): inside `do_api_request`'s attempt loop the shared rate-limit
state is updated from the response's headers exactly when that response is
successful (`ok`, status < 400) -- the response that terminates the loop; error
responses and connection failures leave the state unchanged, because
`if resp:` tests Response truthiness (= `ok`). -/
theorem C8_update_only_on_success (maxTries now : Int) (trace : List NetOutcome)
    (tries : Nat) (rl : RateLimiter) :
    (attemptLoop maxTries now trace tries rl).rl
      = (match (attemptLoop maxTries now trace tries rl).finalResp with
         | some r => rl.update now r.headers
         | none => rl)
    ∧ (attemptLoop maxTries now trace tries rl).finalResp.all (fun r => r.ok) = true :=
  attemptLoop_rl_eq maxTries now trace tries rl

/-! ## Claim C10 -/

/-- `'user'` as characters. -/
theorem userSource_eq : userSource = ['u', 's', 'e', 'r'] := rfl

/-- `'enterprise'` as characters. -/
theorem enterpriseSource_eq :
    enterpriseSource = ['e', 'n', 't', 'e', 'r', 'p', 'r', 'i', 's', 'e'] := rfl

/-- Python `split` never returns an empty list. -/
theorem splitOnSlash_ne_nil (s : Str) : splitOnSlash s ≠ [] := by
  induction s with
  | nil => simp [splitOnSlash]
  | cons c rest ih =>
    simp only [splitOnSlash]
    split
    · simp
    · cases h : splitOnSlash rest with
      | nil => simp
      | cons p ps => simp

/-- `joinSlash` on a list of two or more components. -/
theorem joinSlash_cons (x : Str) (ys : List Str) (h : ys ≠ []) :
    joinSlash (x :: ys) = x ++ '/' :: joinSlash ys := by
  cases ys with
  | nil => exact absurd rfl h
  | cons y ys => rfl

/-- `'/'.join(s.split('/')) == s`. -/
theorem joinSlash_splitOnSlash (s : Str) : joinSlash (splitOnSlash s) = s := by
  induction s with
  | nil => rfl
  | cons c rest ih =>
    simp only [splitOnSlash]
    by_cases hc : c = '/'
    · rw [if_pos hc, joinSlash_cons _ _ (splitOnSlash_ne_nil rest), List.nil_append, ih, hc]
    · rw [if_neg hc]
      cases h : splitOnSlash rest with
      | nil => exact absurd h (splitOnSlash_ne_nil rest)
      | cons p ps =>
        rw [h] at ih
        cases ps with
        | nil =>
          simp only [joinSlash] at ih ⊢
          rw [ih]
        | cons q qs =>
          rw [joinSlash_cons p (q :: qs) (by simp)] at ih
          rw [joinSlash_cons (c :: p) (q :: qs) (by simp), List.cons_append, ih]

/-- Splitting a string whose first slash-free component is `p`. -/
theorem splitOnSlash_append (p rest : Str) (hp : ('/' : Char) ∉ p) :
    splitOnSlash (p ++ '/' :: rest) = p :: splitOnSlash rest := by
  induction p with
  | nil => simp [splitOnSlash]
  | cons c p ih =>
    have hc : c ≠ '/' := fun h => hp (by simp [h])
    have hp' : ('/' : Char) ∉ p := fun h => hp (by simp [h])
    rw [List.cons_append]
    simp only [splitOnSlash, if_neg hc]
    rw [ih hp']

/-- Splitting a slash-free string. -/
theorem splitOnSlash_no_slash (p : Str) (hp : ('/' : Char) ∉ p) : splitOnSlash p = [p] := by
  induction p with
  | nil => rfl
  | cons c p ih =>
    have hc : c ≠ '/' := fun h => hp (by simp [h])
    have hp' : ('/' : Char) ∉ p := fun h => hp (by simp [h])
    simp only [splitOnSlash, if_neg hc, ih hp']

/-- `startswith` holds on an extension of the prefix. -/
theorem strStartsWith_append (p s : Str) : strStartsWith (p ++ s) p = true := by
  rw [strStartsWith, List.isPrefixOf_iff_prefix]
  exact List.prefix_append p s

/-- An enterprise id does not start with `'user'`. -/
theorem user_not_prefix_of_enterprise (s : Str) :
    strStartsWith (enterpriseSource ++ s) userSource = false := by
  rw [userSource_eq, enterpriseSource_eq]
  simp [strStartsWith, List.isPrefixOf]

/-- C10: constructing a stream identifier from valid parts (slash-free
sourceId and type; contentId may contain slashes for user streams, must be
slash-free for enterprise streams whose `content_id` is `parts[3]`) gives
`.id` equal to the slash-joined string, and `from_string` on that string
returns an identifier with equal source, sourceId, type and contentId. -/
theorem C10_streamid_roundtrip (sid ty cid : Str)
    (hsid : ('/' : Char) ∉ sid) (hty : ('/' : Char) ∉ ty) :
    (mkUserStreamId none (some [userSource, sid, ty, cid])
       = .ok { id := joinSlash [userSource, sid, ty, cid], source := userSource,
               source_id := sid, type := ty, content_id := cid }
     ∧ StreamIdBase.from_string (joinSlash [userSource, sid, ty, cid])
       = .ok { id := joinSlash [userSource, sid, ty, cid], source := userSource,
               source_id := sid, type := ty, content_id := cid })
    ∧ (('/' : Char) ∉ cid →
       mkEnterpriseStreamId none (some [enterpriseSource, sid, ty, cid])
         = .ok { id := joinSlash [enterpriseSource, sid, ty, cid], source := enterpriseSource,
                 source_id := sid, type := ty, content_id := cid }
       ∧ StreamIdBase.from_string (joinSlash [enterpriseSource, sid, ty, cid])
         = .ok { id := joinSlash [enterpriseSource, sid, ty, cid], source := enterpriseSource,
                 source_id := sid, type := ty, content_id := cid }) := by
  have hjU : joinSlash [userSource, sid, ty, cid]
      = userSource ++ '/' :: (sid ++ '/' :: (ty ++ '/' :: cid)) := rfl
  have hjE : joinSlash [enterpriseSource, sid, ty, cid]
      = enterpriseSource ++ '/' :: (sid ++ '/' :: (ty ++ '/' :: cid)) := rfl
  have hsU : splitOnSlash (joinSlash [userSource, sid, ty, cid])
      = userSource :: sid :: ty :: splitOnSlash cid := by
    rw [hjU, splitOnSlash_append _ _ (by decide), splitOnSlash_append _ _ hsid,
      splitOnSlash_append _ _ hty]
  have hsE : splitOnSlash (joinSlash [enterpriseSource, sid, ty, cid])
      = enterpriseSource :: sid :: ty :: splitOnSlash cid := by
    rw [hjE, splitOnSlash_append _ _ (by decide), splitOnSlash_append _ _ hsid,
      splitOnSlash_append _ _ hty]
  have hneS := splitOnSlash_ne_nil cid
  refine ⟨⟨?_, ?_⟩, fun hcid => ⟨?_, ?_⟩⟩
  · simp only [mkUserStreamId, Option.getD_some]
    rw [hjU, strStartsWith_append]
    simp [List.getD, joinSlash]
  · rw [StreamIdBase.from_string, hsU]
    have hlen : ¬ (userSource :: sid :: ty :: splitOnSlash cid).length < 4 := by
      cases hcs : splitOnSlash cid with
      | nil => exact absurd hcs hneS
      | cons a as => simp
    rw [if_neg hlen, hjU, strStartsWith_append, if_pos rfl]
    rw [mkUserStreamId]
    rw [strStartsWith_append, if_pos rfl]
    simp [List.getD, joinSlash_splitOnSlash]
  · simp only [mkEnterpriseStreamId, Option.getD_some]
    rw [hjE, strStartsWith_append]
    simp [List.getD]
  · rw [StreamIdBase.from_string, hsE]
    have hlen : ¬ (enterpriseSource :: sid :: ty :: splitOnSlash cid).length < 4 := by
      cases hcs : splitOnSlash cid with
      | nil => exact absurd hcs hneS
      | cons a as => simp
    rw [if_neg hlen, hjE, user_not_prefix_of_enterprise]
    simp only [Bool.false_eq_true, if_false]
    rw [strStartsWith_append, if_pos rfl]
    rw [mkEnterpriseStreamId]
    rw [← hjE, hsE, splitOnSlash_no_slash cid hcid, hjE]
    rw [strStartsWith_append, if_pos rfl]
    simp [List.getD]

/-- C10 witness: the round trip evaluated for a user stream with a
slash-carrying content id and for an enterprise stream. -/
theorem C10_streamid_roundtrip_witness :
    StreamIdBase.from_string
        (joinSlash [userSource, "abcd".toList, "category".toList, "gaming/x".toList])
      = .ok { id := joinSlash [userSource, "abcd".toList, "category".toList, "gaming/x".toList],
              source := userSource, source_id := "abcd".toList,
              type := "category".toList, content_id := "gaming/x".toList }
    ∧ StreamIdBase.from_string
        (joinSlash [enterpriseSource, "acme".toList, "tag".toList, "ffff".toList])
      = .ok { id := joinSlash [enterpriseSource, "acme".toList, "tag".toList, "ffff".toList],
              source := enterpriseSource, source_id := "acme".toList,
              type := "tag".toList, content_id := "ffff".toList } :=
  ⟨((C10_streamid_roundtrip "abcd".toList "category".toList "gaming/x".toList
      (by decide) (by decide)).1).2,
   ((C10_streamid_roundtrip "acme".toList "tag".toList "ffff".toList
      (by decide) (by decide)).2 (by decide)).2⟩

/-! ## Claim C9 -/

/-- C9: on a resolver whose caches are populated (`cache = some l`),
`get(lbl)` for a cached display label that is neither UUID-shaped nor a
cached content id returns the cached entity with no network call; `get(uid)`
for a UUID-shaped string builds the placeholder
`factory("/".join(parts + [uid]))` directly, with no network call even on an
unpopulated resolver `L2`; and `get(missing)` for a string matching neither
dict fails with the not-found error enumerating the cached labels
(`list(name2stream)`). -/
theorem C9_resolver_get {ε : Type} (L L2 : LazyStreams ε) (l : List ε)
    (hc : L.cache = some l) (lbl uid missing : Str) (X : ε)
    (h1a : uuidMatch lbl = false)
    (h1b : dictLookup (l.map (fun e => (L.contentId e, e))) lbl = none)
    (h1c : dictLookup (l.map (fun e => (L.label e, e))) lbl = some X)
    (h2 : uuidMatch uid = true)
    (h3a : uuidMatch missing = false)
    (h3b : dictLookup (l.map (fun e => (L.contentId e, e))) missing = none)
    (h3c : dictLookup (l.map (fun e => (L.label e, e))) missing = none) :
    ((L.get lbl).1 = .ok X ∧ (L.get lbl).2.2 = 0)
    ∧ ((L2.get uid).1 = .ok (L2.factory (joinSlash (L2.parts ++ [uid])))
       ∧ (L2.get uid).2.2 = 0)
    ∧ ((L.get missing).1
        = .error (.notFound missing (dictKeys (l.map (fun e => (L.label e, e)))))
       ∧ (L.get missing).2.2 = 0) := by
  obtain ⟨pa, la, ci, fa, sv, ca⟩ := L
  replace hc : ca = some l := hc
  subst hc
  simp only [LazyStreams.get, LazyStreams.get_from_id, LazyStreams.get_from_name,
    LazyStreams.id2stream, LazyStreams.name2stream, LazyStreams.streams,
    LazyStreams.make_stream_from_id] at *
  simp [h1a, h1b, h1c, h2, h3a, h3b, h3c]

/-- C9's concrete populated resolver: entities `10` (label `recipes`) and `20`
(label `boards`), with UUID content ids. -/
def c9Resolver : LazyStreams Nat :=
  { parts := ["enterprise".toList, "acme".toList, "tag".toList]
    label := fun e => if e = 10 then "recipes".toList else "boards".toList
    contentId := fun e => if e = 10 then "aaaabbbb-0000-1111-2222-333333333333".toList
      else "ccccdddd-0000-1111-2222-333333333333".toList
    factory := fun s => s.length
    serverList := [10, 20]
    cache := some [10, 20] }

/-- The same resolver with nothing fetched yet. -/
def c9Unpopulated : LazyStreams Nat := { c9Resolver with cache := none }

/-- A valid UUID string. -/
def c9Uuid : Str := "12345678-1234-1234-1234-123456789abc".toList

/-- C9 witness: the three resolution behaviors evaluated on the concrete
resolver. -/
theorem C9_resolver_get_witness :
    ((c9Resolver.get ("recipes".toList)).1 = .ok 10
     ∧ (c9Resolver.get ("recipes".toList)).2.2 = 0)
    ∧ ((c9Unpopulated.get c9Uuid).1
        = .ok (c9Unpopulated.factory (joinSlash (c9Unpopulated.parts ++ [c9Uuid])))
       ∧ (c9Unpopulated.get c9Uuid).2.2 = 0)
    ∧ ((c9Resolver.get ("doesNotExist".toList)).1
        = .error (.notFound ("doesNotExist".toList)
            (dictKeys (([10, 20] : List Nat).map (fun e => (c9Resolver.label e, e)))))
       ∧ (c9Resolver.get ("doesNotExist".toList)).2.2 = 0) :=
  C9_resolver_get c9Resolver c9Unpopulated [10, 20] rfl
    ("recipes".toList) c9Uuid ("doesNotExist".toList) 10
    rfl rfl rfl rfl rfl rfl rfl

/-! ## Claim C3 -/

/-- `resp[self._items_prop]` with a missing property read as no items. -/
def Page.itemsD {α : Type} (p : Page α) : List α := p.items.getD []

/-- Total number of items across the server's pages. -/
def totalItems {α : Type} (pages : List (Page α)) : Nat :=
  (pages.map (fun p => p.itemsD.length)).sum

/-- A well-formed server behavior: every response carries the items property,
every page but the last carries a continuation token, and the last does not. -/
def chainWF {α : Type} : List (Page α) → Bool
  | [] => true
  | p :: rest =>
    p.items.isSome &&
      (match rest with
       | [] => p.continuation == none
       | _ :: _ => p.continuation.isSome) &&
      chainWF rest

/-- The traversal yields at most `maxCount - n` items, whatever the server
returns. -/
theorem runStream_length_le {α : Type} (maxCount : Nat) (pages : List (Page α))
    (n : Nat) (cont : Option String) (buffer : List α) :
    (runStream maxCount pages n cont buffer).items.length ≤ maxCount - n := by
  induction pages generalizing n cont buffer with
  | nil =>
    rw [runStream]
    by_cases h1 : n < maxCount ∧ (cont.isSome || !buffer.isEmpty) = true
    · rw [if_pos h1]
      by_cases h2 : cont.isSome = true ∧ n + min buffer.length (maxCount - n) < maxCount
      · rw [if_pos h2]
        simp only [List.length_append, List.length_take, List.length_reverse]
        omega
      · rw [if_neg h2]
        simp only [List.length_take, List.length_reverse]
        omega
    · rw [if_neg h1]
      simp
  | cons p rest ih =>
    rw [runStream]
    by_cases h1 : n < maxCount ∧ (cont.isSome || !buffer.isEmpty) = true
    · rw [if_pos h1]
      by_cases h2 : cont.isSome = true ∧ n + min buffer.length (maxCount - n) < maxCount
      · rw [if_pos h2]
        have h := ih (n + min buffer.length (maxCount - n)) p.continuation
          (match p.items with
           | some its => its
           | none => buffer.take (buffer.length - min buffer.length (maxCount - n)))
        simp only [List.length_append, List.length_take, List.length_reverse]
        omega
      · rw [if_neg h2]
        simp only [List.length_take, List.length_reverse]
        omega
    · rw [if_neg h1]
      simp

/-- Exact count of yielded items: the traversal yields
`min (maxCount - n) (buffer + remaining server items)` when the remaining
pages are well formed (the continuation counts the pages only while one is
known). -/
theorem runStream_length_eq {α : Type} (maxCount : Nat) (pages : List (Page α))
    (n : Nat) (cont : Option String) (buffer : List α)
    (hwf : cont.isSome = true → chainWF pages = true) :
    (runStream maxCount pages n cont buffer).items.length
      = min (maxCount - n) (buffer.length + if cont.isSome then totalItems pages else 0) := by
  induction pages generalizing n cont buffer with
  | nil =>
    rw [runStream]
    cases hco : cont.isSome with
    | false =>
      simp only [hco, Bool.false_eq_true, false_and, if_false, Bool.false_or]
      by_cases h1 : n < maxCount ∧ (!buffer.isEmpty) = true
      · rw [if_pos h1]
        simp only [List.length_take, List.length_reverse]
        omega
      · rw [if_neg h1]
        simp only [List.length_nil, Nat.add_zero]
        rw [not_and_or] at h1
        rcases h1 with h | h
        · omega
        · have hb : buffer = [] := by
            rcases buffer with _ | ⟨a, as⟩
            · rfl
            · simp at h
          subst hb
          simp
    | true =>
      simp only [hco, Bool.true_or, if_true, true_and, and_true, totalItems, List.map_nil,
        List.sum_nil, Nat.add_zero]
      by_cases h1 : n < maxCount
      · rw [if_pos h1]
        by_cases h2 : n + min buffer.length (maxCount - n) < maxCount
        · rw [if_pos h2]
          simp only [List.length_append, List.length_take, List.length_reverse]
          omega
        · rw [if_neg h2]
          simp only [List.length_take, List.length_reverse]
          omega
      · rw [if_neg h1]
        simp only [List.length_nil]
        omega
  | cons p rest ih =>
    rw [runStream]
    cases hco : cont.isSome with
    | false =>
      simp only [hco, Bool.false_eq_true, false_and, if_false, Bool.false_or]
      by_cases h1 : n < maxCount ∧ (!buffer.isEmpty) = true
      · rw [if_pos h1]
        simp only [List.length_take, List.length_reverse]
        omega
      · rw [if_neg h1]
        simp only [List.length_nil, Nat.add_zero]
        rw [not_and_or] at h1
        rcases h1 with h | h
        · omega
        · have hb : buffer = [] := by
            rcases buffer with _ | ⟨a, as⟩
            · rfl
            · simp at h
          subst hb
          simp
    | true =>
      have hwf' : chainWF (p :: rest) = true := hwf hco
      simp only [chainWF, Bool.and_eq_true] at hwf'
      obtain ⟨⟨hi, hm⟩, hr⟩ := hwf'
      obtain ⟨its, hits⟩ := Option.isSome_iff_exists.mp hi
      simp only [hco, Bool.true_or, if_true, true_and, and_true]
      by_cases h1 : n < maxCount
      · rw [if_pos h1]
        by_cases h2 : n + min buffer.length (maxCount - n) < maxCount
        · rw [if_pos h2]
          simp only [hits]
          have hrec := ih (n + min buffer.length (maxCount - n)) p.continuation its
            (fun _ => hr)
          have htot : (if p.continuation.isSome = true then totalItems rest else 0)
              = totalItems rest := by
            cases hpc : p.continuation.isSome with
            | true => rw [if_pos rfl]
            | false =>
              rw [if_neg (by simp)]
              cases rest with
              | nil => simp [totalItems]
              | cons q qs => rw [hpc] at hm; exact absurd hm (by simp)
          rw [htot] at hrec
          simp only [List.length_append, List.length_take, List.length_reverse, hrec,
            totalItems, List.map_cons, List.sum_cons, Page.itemsD, hits, Option.getD_some]
          omega
        · rw [if_neg h2]
          simp only [List.length_take, List.length_reverse]
          omega
      · rw [if_neg h1]
        simp only [List.length_nil]
        omega

/-- One request per page when the server is well formed and the cap is not
reached: no further request is issued once a response carries no continuation
token. -/
theorem runStream_requests_eq {α : Type} (maxCount : Nat) (pages : List (Page α))
    (n : Nat) (cont : Option String) (buffer : List α)
    (hwf : cont.isSome = true → chainWF pages = true)
    (hne : cont.isSome = true → pages ≠ [])
    (hroom : cont.isSome = true → buffer.length + totalItems pages < maxCount - n) :
    (runStream maxCount pages n cont buffer).requests
      = if cont.isSome then pages.length else 0 := by
  induction pages generalizing n cont buffer with
  | nil =>
    cases hco : cont.isSome with
    | true => exact absurd rfl (hne hco)
    | false =>
      rw [runStream]
      simp only [hco, Bool.false_eq_true, false_and, if_false, Bool.false_or]
      by_cases h1 : n < maxCount ∧ (!buffer.isEmpty) = true
      · rw [if_pos h1]
      · rw [if_neg h1]
  | cons p rest ih =>
    cases hco : cont.isSome with
    | false =>
      rw [runStream]
      simp only [hco, Bool.false_eq_true, false_and, if_false, Bool.false_or]
      by_cases h1 : n < maxCount ∧ (!buffer.isEmpty) = true
      · rw [if_pos h1]
      · rw [if_neg h1]
    | true =>
      rw [runStream]
      have hroom' := hroom hco
      have hwf' := hwf hco
      simp only [chainWF, Bool.and_eq_true] at hwf'
      obtain ⟨⟨hi, hm⟩, hr⟩ := hwf'
      obtain ⟨its, hits⟩ := Option.isSome_iff_exists.mp hi
      have htotc : totalItems (p :: rest) = its.length + totalItems rest := by
        simp [totalItems, Page.itemsD, hits]
      have h1 : n < maxCount := by omega
      have hk : min buffer.length (maxCount - n) = buffer.length := by omega
      have h2 : n + min buffer.length (maxCount - n) < maxCount := by omega
      simp only [hco, Bool.true_or, if_true, true_and, and_true]
      rw [if_pos h1, if_pos h2]
      simp only [hits]
      have hnerec : p.continuation.isSome = true → rest ≠ [] := by
        intro hpc
        cases rest with
        | nil =>
          have hcn : p.continuation = none := by simpa using hm
          rw [hcn] at hpc
          simp at hpc
        | cons q qs => simp
      have hroomrec : p.continuation.isSome = true
          → its.length + totalItems rest < maxCount - (n + min buffer.length (maxCount - n)) := by
        intro _; omega
      have hrec := ih (n + min buffer.length (maxCount - n)) p.continuation its
        (fun _ => hr) hnerec hroomrec
      rw [hrec]
      cases hpc : p.continuation.isSome with
      | true => simp
      | false =>
        cases rest with
        | nil => simp
        | cons q qs => rw [hpc] at hm; exact absurd hm (by simp)

/-- When the cap is out of reach the traversal yields the leftover buffer
(reversed, since items are popped from the end) followed by every page's
items, each page reversed. -/
theorem runStream_items_eq {α : Type} (maxCount : Nat) (pages : List (Page α))
    (n : Nat) (cont : Option String) (buffer : List α)
    (hwf : cont.isSome = true → chainWF pages = true)
    (hroom : buffer.length + (if cont.isSome then totalItems pages else 0) < maxCount - n) :
    (runStream maxCount pages n cont buffer).items
      = buffer.reverse
        ++ (if cont.isSome then (pages.map (fun p => p.itemsD.reverse)).join else []) := by
  induction pages generalizing n cont buffer with
  | nil =>
    rw [runStream]
    cases hco : cont.isSome with
    | false =>
      rw [hco] at hroom
      simp only [hco, Bool.false_eq_true, false_and, if_false, Bool.false_or] at *
      rw [List.append_nil]
      by_cases hb : buffer.isEmpty
      · rw [if_neg (by intro hx; rw [hb] at hx; simp at hx)]
        have : buffer = [] := by
          rcases buffer with _ | ⟨a, as⟩
          · rfl
          · simp at hb
        rw [this]
        rfl
      · rw [if_pos ⟨by omega, by simp [hb]⟩]
        have hk : min buffer.length (maxCount - n) = buffer.length := by omega
        rw [hk, ← List.length_reverse buffer, List.take_length]
    | true =>
      rw [hco] at hroom
      simp only [hco, Bool.true_or, if_true, true_and, and_true, if_true,
        List.map_nil, List.join_nil, List.append_nil] at *
      simp only [totalItems, List.map_nil, List.sum_nil, Nat.add_zero] at hroom
      have h1 : n < maxCount := by omega
      have hk : min buffer.length (maxCount - n) = buffer.length := by omega
      have h2 : n + min buffer.length (maxCount - n) < maxCount := by omega
      rw [if_pos h1, if_pos h2, hk]
      rw [Nat.sub_self, List.take_zero, List.length_nil]
      simp only [List.reverse_nil, List.take_nil, List.append_nil]
      rw [← List.length_reverse buffer, List.take_length]
  | cons p rest ih =>
    cases hco : cont.isSome with
    | false =>
      rw [runStream]
      rw [hco] at hroom
      simp only [hco, Bool.false_eq_true, false_and, if_false, Bool.false_or] at *
      rw [List.append_nil]
      by_cases hb : buffer.isEmpty
      · rw [if_neg (by intro hx; rw [hb] at hx; simp at hx)]
        have : buffer = [] := by
          rcases buffer with _ | ⟨a, as⟩
          · rfl
          · simp at hb
        rw [this]
        rfl
      · rw [if_pos ⟨by omega, by simp [hb]⟩]
        have hk : min buffer.length (maxCount - n) = buffer.length := by omega
        rw [hk, ← List.length_reverse buffer, List.take_length]
    | true =>
      rw [runStream]
      rw [hco] at hroom
      have hwf' := hwf hco
      simp only [chainWF, Bool.and_eq_true] at hwf'
      obtain ⟨⟨hi, hm⟩, hr⟩ := hwf'
      obtain ⟨its, hits⟩ := Option.isSome_iff_exists.mp hi
      have htotc : totalItems (p :: rest) = its.length + totalItems rest := by
        simp [totalItems, Page.itemsD, hits]
      rw [if_pos rfl, htotc] at hroom
      have htot : (if p.continuation.isSome = true then totalItems rest else 0)
          = totalItems rest := by
        cases hpc : p.continuation.isSome with
        | true => rw [if_pos rfl]
        | false =>
          rw [if_neg (by simp)]
          cases rest with
          | nil => simp [totalItems]
          | cons q qs => rw [hpc] at hm; exact absurd hm (by simp)
      have hjoin : (if p.continuation.isSome = true
            then (rest.map (fun q => q.itemsD.reverse)).join else [])
          = (rest.map (fun q => q.itemsD.reverse)).join := by
        cases hpc : p.continuation.isSome with
        | true => rw [if_pos rfl]
        | false =>
          rw [if_neg (by simp)]
          cases rest with
          | nil => simp
          | cons q qs => rw [hpc] at hm; exact absurd hm (by simp)
      have h1 : n < maxCount := by omega
      have hk : min buffer.length (maxCount - n) = buffer.length := by omega
      have h2 : n + min buffer.length (maxCount - n) < maxCount := by omega
      simp only [hco, Bool.true_or, if_true, true_and, and_true]
      rw [if_pos h1, if_pos h2]
      simp only [hits]
      have hrec := ih (n + min buffer.length (maxCount - n)) p.continuation its
        (fun _ => hr) (by rw [htot]; omega)
      rw [hjoin] at hrec
      rw [hrec, hk]
      rw [← List.length_reverse buffer, List.take_length]
      simp [Page.itemsD, hits, List.append_assoc]

/-- Flattening reversed blocks is a permutation of flattening the blocks. -/
theorem join_reverse_perm {α : Type} (ps : List (List α)) :
    ((ps.map List.reverse).join).Perm ps.join := by
  induction ps with
  | nil => exact List.Perm.refl _
  | cons p ps ih =>
    simp only [List.map_cons, List.join_cons]
    exact List.Perm.append (List.reverse_perm p) ih

/-- C3: for every `maxCount = N` and every server behavior the traversal
yields at most `N` items; over a well-formed server with at least `N` items a
fresh cursor yields exactly `N`; and over a well-formed server with fewer than
`N` items it yields all of them (as a permutation -- each page is emitted
reversed, see C1) and issues exactly one request per page, none after the
page with no continuation token. -/
theorem C3_maxcount_bounds {α : Type} (N : Nat) (pages : List (Page α)) :
    (consume N pages (StreamState.initial α)).items.length ≤ N
    ∧ (chainWF pages = true → N ≤ totalItems pages →
        (consume N pages (StreamState.initial α)).items.length = N)
    ∧ (chainWF pages = true → pages ≠ [] → totalItems pages < N →
        (consume N pages (StreamState.initial α)).items.Perm (pages.map Page.itemsD).join
        ∧ (consume N pages (StreamState.initial α)).requests = pages.length) := by
  refine ⟨?_, ?_, ?_⟩
  · have h := runStream_length_le N pages 0 (some "") []
    simpa [consume, StreamState.initial] using h
  · intro hwf hN
    have h := runStream_length_eq N pages 0 (some "") [] (fun _ => hwf)
    simp only [consume, StreamState.initial] at h ⊢
    rw [h]
    simp only [List.length_nil, Nat.zero_add, Option.isSome_some, if_true]
    omega
  · intro hwf hne htot
    refine ⟨?_, ?_⟩
    · have h := runStream_items_eq N pages 0 (some "") [] (fun _ => hwf)
        (by simpa using htot)
      simp only [consume, StreamState.initial] at h ⊢
      rw [h]
      simp only [List.reverse_nil, List.nil_append, Option.isSome_some, if_true]
      have hmm : pages.map (fun p => p.itemsD.reverse)
          = (pages.map Page.itemsD).map List.reverse := by
        rw [List.map_map]
        rfl
      rw [hmm]
      exact join_reverse_perm _
    · have h := runStream_requests_eq N pages 0 (some "") [] (fun _ => hwf) (fun _ => hne)
        (by intro _; simpa using htot)
      simp only [consume, StreamState.initial] at h ⊢
      rw [h]
      simp

/-- C3's concrete well-formed server: pages `[1, 2]` then `[3]`. -/
def c3Pages : List (Page Nat) :=
  [{ items := some [1, 2], continuation := some "c" },
   { items := some [3], continuation := none }]

/-- C3 witness: a cursor capped at 2 yields exactly 2 of the 3 items; a cursor
capped at 5 yields all 3 as a permutation and issues exactly 2 requests. -/
theorem C3_maxcount_bounds_witness :
    (consume 2 c3Pages (StreamState.initial Nat)).items.length = 2
    ∧ (consume 5 c3Pages (StreamState.initial Nat)).items.Perm
        ((c3Pages.map Page.itemsD).join)
    ∧ (consume 5 c3Pages (StreamState.initial Nat)).requests = 2 :=
  ⟨(C3_maxcount_bounds 2 c3Pages).2.1 (by decide) (by decide),
   ((C3_maxcount_bounds 5 c3Pages).2.2 (by decide) (by decide) (by decide)).1,
   ((C3_maxcount_bounds 5 c3Pages).2.2 (by decide) (by decide) (by decide)).2⟩

/-- The attempt loop on a trace whose head is a successful response: one
attempt, limiter updated from that response. -/
theorem attemptLoop_ok_head (maxTries now : Int) (r : HttpResp) (rest : List NetOutcome)
    (tries : Nat) (rl : RateLimiter)
    (hlim : rl.rate_limited now = false) (hok : r.ok = true) :
    attemptLoop maxTries now (.resp r :: rest) tries rl
      = { result := .ok (if r.hasContent then some r else none),
          rl := rl.update now r.headers, trace := rest, tries := tries + 1,
          sleeps := [], finalResp := some r } := by
  rw [attemptLoop]
  simp [hlim, hok]

/-- The attempt loop on a trace whose head is a response with a status in
`[400, 500]`: raised on the first attempt, no retry, limiter untouched. -/
theorem attemptLoop_clienterr_head (maxTries now : Int) (r : HttpResp) (rest : List NetOutcome)
    (tries : Nat) (rl : RateLimiter)
    (hlim : rl.rate_limited now = false) (hbad : r.ok = false)
    (hrange : 400 ≤ r.status ∧ r.status ≤ 500) :
    attemptLoop maxTries now (.resp r :: rest) tries rl
      = { result := .error (.httpErr r.status), rl := rl, trace := rest, tries := tries + 1,
          sleeps := [], finalResp := none } := by
  rw [attemptLoop]
  simp only [hlim, Bool.false_eq_true, if_false, hbad]
  rw [if_pos (Or.inr hrange)]

/-- One successful attempt: validations pass, the head response is `ok`, the
call returns its body, appends one `apiCalls` entry, updates the limiter from
its headers and consumes one trace entry. -/
theorem doApiRequest_ok (fuel : Nat) (relUrl : Str) (methodArg : Option Str) (hasData : Bool)
    (mta : Option Int) (s : SessState) (r : HttpResp) (rest : List NetOutcome) (tk : String)
    (htk : s.authToken = some tk)
    (hslash : relUrl.head? = some '/')
    (hv3 : strStartsWith relUrl pathV3 = true)
    (hM : invalidMaxTries (mta.getD 3) = false)
    (hmethod : ¬(methodArg.getD (if hasData then postStr else getStr) = getStr ∧ hasData))
    (hrl : s.rl.rate_limited s.now = false)
    (htr : s.trace = .resp r :: rest)
    (hok : r.ok = true) :
    doApiRequest (fuel + 1) relUrl methodArg hasData mta s
      = (.ok (if r.hasContent then some r else none),
         { s with apiCalls := s.apiCalls ++ [relUrl],
                  rl := s.rl.update s.now r.headers,
                  trace := rest }) := by
  rw [doApiRequest]
  rw [if_neg (by rw [htk]; simp)]
  rw [if_pos hslash]
  rw [if_neg (by rw [hv3]; simp)]
  rw [if_neg (by rw [hM]; simp)]
  rw [if_neg hmethod]
  rw [if_neg (by simpa using hrl)]
  dsimp only
  rw [htr, attemptLoop_ok_head _ _ _ _ _ _ hrl hok]
  dsimp only
  simp

/-- One attempt answered by a 400: the call raises `BadRequestAPIError`
without retrying, leaving the limiter untouched. -/
theorem doApiRequest_badRequest (fuel : Nat) (relUrl : Str) (methodArg : Option Str)
    (hasData : Bool) (mta : Option Int) (s : SessState) (r : HttpResp)
    (rest : List NetOutcome) (tk : String)
    (htk : s.authToken = some tk)
    (hslash : relUrl.head? = some '/')
    (hv3 : strStartsWith relUrl pathV3 = true)
    (hM : invalidMaxTries (mta.getD 3) = false)
    (hmethod : ¬(methodArg.getD (if hasData then postStr else getStr) = getStr ∧ hasData))
    (hrl : s.rl.rate_limited s.now = false)
    (htr : s.trace = .resp r :: rest)
    (hbad : r.ok = false) (hstat : r.status = 400) :
    doApiRequest (fuel + 1) relUrl methodArg hasData mta s
      = (.error .badRequest,
         { s with apiCalls := s.apiCalls ++ [relUrl], trace := rest }) := by
  rw [doApiRequest]
  rw [if_neg (by rw [htk]; simp)]
  rw [if_pos hslash]
  rw [if_neg (by rw [hv3]; simp)]
  rw [if_neg (by rw [hM]; simp)]
  rw [if_neg hmethod]
  rw [if_neg (by simpa using hrl)]
  dsimp only
  rw [htr, attemptLoop_clienterr_head _ _ _ _ _ _ hrl hbad (by rw [hstat]; omega)]
  dsimp only
  rw [hstat]
  simp

/-- C4: a request whose attempt loop raises 401 (`out`), on a non-auth path,
with a refresh token present and no refresh attempt within the last 24h
(86400s): exactly one refresh call to `/v3/auth/token` is made (one `apiCalls`
entry), the returned `access_token` is stored as the bearer token, and the
original request is retried exactly once (its path appears exactly twice);
when the refresh call itself fails, the original Unauthorized error is raised,
the token is unchanged and no retry happens. -/
theorem C4_token_refresh (fuel : Nat) (relUrl : Str) (methodArg : Option Str)
    (hasData : Bool) (mta : Option Int) (s : SessState) (out : LoopOut)
    (tk rt nt : String) (rOK r2 rBad : HttpResp) (rest2 : List NetOutcome)
    (htk : s.authToken = some tk)
    (hrt : s.refreshToken = some rt)
    (hslash : relUrl.head? = some '/')
    (hv3 : strStartsWith relUrl pathV3 = true)
    (hauth : strStartsWith relUrl pathAuth = false)
    (hM : invalidMaxTries (mta.getD 3) = false)
    (hmethod : ¬(methodArg.getD (if hasData then postStr else getStr) = getStr ∧ hasData))
    (hrl : s.rl.rate_limited s.now = false)
    (htime : s.now - s.lastRefreshAttempt > 86400)
    (hloop : attemptLoop (mta.getD 3) s.now s.trace 0 s.rl = out)
    (h401 : out.result = .error (.httpErr 401)) :
    (out.trace = .resp rOK :: .resp r2 :: rest2 → rOK.ok = true → rOK.hasContent = true →
      rOK.accessToken = some nt → rOK.headers = {} → r2.ok = true →
      doApiRequest (fuel + 2) relUrl methodArg hasData mta s
        = (.ok (if r2.hasContent then some r2 else none),
           { authToken := some nt, refreshToken := s.refreshToken,
             lastRefreshAttempt := s.now, now := s.now,
             rl := s.rl.update s.now r2.headers, trace := rest2,
             apiCalls := s.apiCalls ++ [relUrl, pathAuthToken, relUrl],
             sleeps := s.sleeps ++ out.sleeps }))
    ∧ (out.trace = .resp rBad :: rest2 → rBad.ok = false → rBad.status = 400 →
      doApiRequest (fuel + 2) relUrl methodArg hasData mta s
        = (.error .unauthorized,
           { authToken := s.authToken, refreshToken := s.refreshToken,
             lastRefreshAttempt := s.now, now := s.now,
             rl := s.rl, trace := rest2,
             apiCalls := s.apiCalls ++ [relUrl, pathAuthToken],
             sleeps := s.sleeps ++ out.sleeps })) := by
  have hrl2 : out.rl = s.rl := by
    rw [← hloop]
    exact attemptLoop_error_rl _ _ _ _ _ _ (by rw [hloop]; exact h401)
  constructor
  · intro htr hok hokc htok hOKh hr2
    rw [doApiRequest]
    rw [if_neg (by rw [htk]; simp)]
    rw [if_pos hslash]
    rw [if_neg (by rw [hv3]; simp)]
    rw [if_neg (by rw [hM]; simp)]
    rw [if_neg hmethod]
    rw [if_neg (by simpa using hrl)]
    dsimp only
    rw [hloop, h401]
    dsimp only
    rw [if_neg (by decide), if_pos rfl]
    rw [if_pos ⟨by rw [hauth]; simp, by rw [hrt]; simp, htime⟩]
    have hupd : out.rl.update s.now rOK.headers = s.rl := by
      rw [hrl2, hOKh]
      exact RateLimiter.update_no_headers _ _ _ rfl rfl rfl
    rw [doApiRequest_ok fuel pathAuthToken none true none _ rOK (.resp r2 :: rest2) tk
      (by dsimp only; exact htk) (by decide) (by decide) (by decide) (by decide)
      (by dsimp only; rw [hrl2]; exact hrl) (by dsimp only; exact htr) hok]
    rw [hokc, if_pos rfl]
    dsimp only
    rw [htok]
    dsimp only
    rw [doApiRequest_ok fuel relUrl _ hasData _ _ r2 rest2 nt rfl hslash hv3
      (by simpa using hM) (by simpa using hmethod)
      (by dsimp only; rw [hupd]; exact hrl) rfl hr2]
    dsimp only
    rw [hupd]
    simp
  · intro htr hbad hstat
    rw [doApiRequest]
    rw [if_neg (by rw [htk]; simp)]
    rw [if_pos hslash]
    rw [if_neg (by rw [hv3]; simp)]
    rw [if_neg (by rw [hM]; simp)]
    rw [if_neg hmethod]
    rw [if_neg (by simpa using hrl)]
    dsimp only
    rw [hloop, h401]
    dsimp only
    rw [if_neg (by decide), if_pos rfl]
    rw [if_pos ⟨by rw [hauth]; simp, by rw [hrt]; simp, htime⟩]
    rw [doApiRequest_badRequest fuel pathAuthToken none true none _ rBad rest2 tk
      (by dsimp only; exact htk) (by decide) (by decide) (by decide) (by decide)
      (by dsimp only; rw [hrl2]; exact hrl) (by dsimp only; exact htr) hbad hstat]
    dsimp only
    rw [hrl2]
    simp

/-- The 401 answer. -/
def c4Resp401 : HttpResp := { status := 401 }

/-- The refresh endpoint's answer carrying the new bearer token. -/
def c4RespTok : HttpResp := { status := 200, accessToken := some "newTok" }

/-- The retried request's 200 answer. -/
def c4Resp200 : HttpResp := { status := 200 }

/-- C4's success scenario: 401, then a 200 with a fresh token, then a 200. -/
def c4Start : SessState :=
  { authToken := some "oldTok"
    refreshToken := some "refTok"
    lastRefreshAttempt := 0
    now := 100000
    trace := [.resp c4Resp401, .resp c4RespTok, .resp c4Resp200] }

/-- C4's failure scenario: 401, then the refresh call is answered 400. -/
def c4FailStart : SessState :=
  { c4Start with trace := [.resp c4Resp401, .resp { status := 400 }] }

/-- C4 witness: both refresh scenarios evaluated on concrete traces. -/
theorem C4_token_refresh_witness :
    doApiRequest 2 ("/v3/markers".toList) none false (some 3) c4Start
      = (.ok (some c4Resp200),
         { authToken := some "newTok", refreshToken := some "refTok",
           lastRefreshAttempt := 100000, now := 100000, rl := {},
           trace := [],
           apiCalls := ["/v3/markers".toList, pathAuthToken, "/v3/markers".toList],
           sleeps := [] })
    ∧ doApiRequest 2 ("/v3/markers".toList) none false (some 3) c4FailStart
      = (.error .unauthorized,
         { authToken := some "oldTok", refreshToken := some "refTok",
           lastRefreshAttempt := 100000, now := 100000, rl := {},
           trace := [],
           apiCalls := ["/v3/markers".toList, pathAuthToken],
           sleeps := [] }) :=
  ⟨(C4_token_refresh 0 ("/v3/markers".toList) none false (some 3) c4Start
      (attemptLoop 3 c4Start.now c4Start.trace 0 c4Start.rl)
      "oldTok" "refTok" "newTok" c4RespTok c4Resp200 c4Resp401 []
      rfl rfl rfl rfl rfl rfl (by decide) rfl (by decide) rfl rfl).1
      rfl rfl rfl rfl rfl rfl,
   (C4_token_refresh 0 ("/v3/markers".toList) none false (some 3) c4FailStart
      (attemptLoop 3 c4FailStart.now c4FailStart.trace 0 c4FailStart.rl)
      "oldTok" "refTok" "newTok" c4RespTok c4Resp200 { status := 400 } []
      rfl rfl rfl rfl rfl rfl (by decide) rfl (by decide) rfl rfl).2
      rfl rfl rfl⟩
